import Mathlib

/-
  Verification development for the AuraSight backend (src/backend/main.py).

  The backend is a thin inference service: it decodes an uploaded retinal
  image, runs a 5-class classifier, computes a Grad-CAM explanation for the
  predicted class, and packages the result; a second entry point renders a
  PDF report from a prior result payload.

  Shallow embedding conventions:
  - numpy float arrays are embedded as `List Rat`; uint8 pixel data as Nat
    with explicit truncation/wrap (`toUint8`).
  - External library calls (cv2 decode/resize/colormap, the tf-keras-vis
    Grad-CAM kernel, base64, the model forward pass) are parameters of the
    embedded functions (fields of `Env`, `PdfEnv`, or explicit function
    arguments); the repository code under verification is the glue that
    composes them, and that glue is translated line by line.
  - A Python exception that escapes the function is `Except.error`;
    a normal return is `Except.ok`.
-/

-- Constants from src/backend/main.py lines 34-35 and 56.
def IMG_SIZE : Nat := 224

def NUM_CLASSES : Nat := 5

def CLASS_NAMES : List String :=
  ["No DR", "Mild", "Moderate", "Severe", "Proliferative DR"]

/-
  np.argmax over a 1-d array, modelled from the numpy documentation:
  the index of the maximum value, with the FIRST occurrence returned in
  case of ties.  `npMax` is the maximum value of a nonempty list.
-/
def npMax : List ℚ → ℚ
  | [] => 0
  | [x] => x
  | x :: y :: ys => max x (npMax (y :: ys))

def np_argmax : List ℚ → Nat
  | [] => 0
  | [_] => 0
  | x :: y :: ys => if npMax (y :: ys) ≤ x then 0 else np_argmax (y :: ys) + 1

theorem le_npMax_of_mem {l : List ℚ} {a : ℚ} (h : a ∈ l) : a ≤ npMax l := by
  induction l with
  | nil => cases h
  | cons x xs ih =>
    cases xs with
    | nil =>
      simp only [List.mem_singleton] at h
      simp [npMax, h]
    | cons y ys =>
      rcases List.mem_cons.mp h with rfl | h2
      · exact le_max_left _ _
      · exact le_trans (ih h2) (le_max_right _ _)

theorem np_argmax_lt_length {l : List ℚ} (h : l ≠ []) :
    np_argmax l < l.length := by
  induction l with
  | nil => exact absurd rfl h
  | cons x xs ih =>
    cases xs with
    | nil => simp [np_argmax]
    | cons y ys =>
      by_cases hc : npMax (y :: ys) ≤ x
      · simp [np_argmax, hc]
      · have h2 := ih (List.cons_ne_nil y ys)
        simp only [np_argmax, hc, if_false, List.length_cons] at h2 ⊢
        omega

theorem getD_np_argmax {l : List ℚ} (h : l ≠ []) :
    l.getD (np_argmax l) 0 = npMax l := by
  induction l with
  | nil => exact absurd rfl h
  | cons x xs ih =>
    cases xs with
    | nil => simp [np_argmax, npMax]
    | cons y ys =>
      by_cases hc : npMax (y :: ys) ≤ x
      · simp only [np_argmax, hc, if_true, List.getD_cons_zero, npMax]
        exact (max_eq_left hc).symm
      · have h2 := ih (List.cons_ne_nil y ys)
        simp only [np_argmax, hc, if_false, List.getD_cons_succ, npMax]
        rw [h2, max_eq_right (le_of_lt (not_le.mp hc))]

theorem np_argmax_le_of_getD_eq {l : List ℚ} :
    ∀ i : Nat, i < l.length → l.getD i 0 = npMax l → np_argmax l ≤ i := by
  induction l with
  | nil => intro i hi; simp at hi
  | cons x xs ih =>
    intro i hi hmax
    cases xs with
    | nil => simp [np_argmax]
    | cons y ys =>
      by_cases hc : npMax (y :: ys) ≤ x
      · simp [np_argmax, hc]
      · have hlt := not_le.mp hc
        cases i with
        | zero =>
          exfalso
          simp only [List.getD_cons_zero, npMax] at hmax
          rw [max_eq_right (le_of_lt hlt)] at hmax
          exact lt_irrefl _ (hmax ▸ hlt)
        | succ j =>
          simp only [np_argmax, hc, if_false]
          simp only [List.getD_cons_succ] at hmax
          simp only [npMax] at hmax
          rw [max_eq_right (le_of_lt hlt)] at hmax
          have hj : j < (y :: ys).length := by
            simp only [List.length_cons] at hi ⊢; omega
          exact Nat.succ_le_succ (ih j hj hmax)

/-
  Image data: a decoded color image is a grid of pixel triples with
  rational channel values (uint8 values 0-255 after decode, values in
  [0,1] after normalization).
-/
abbrev Img : Type := List (List (ℚ × ℚ × ℚ))

/-
  External functions used by the inference pipeline (all from cv2 or from
  generate_gradcam, which is embedded separately below and treated as an
  opaque producer of a base64 string here):
  - `imdecode` models cv2.imdecode(..., cv2.IMREAD_COLOR): `none` when the
    bytes are not a decodable color image (cv2 returns the None object);
  - `cvtColorRGB` models cv2.cvtColor(..., cv2.COLOR_BGR2RGB);
  - `resize224` models cv2.resize(img, (IMG_SIZE, IMG_SIZE));
  - `gradcamFn` models the call generate_gradcam(img_batch, predicted_index)
    at line 81, returning the base64 heatmap string.
-/
structure Env where
  imdecode : List Nat → Option Img
  cvtColorRGB : Img → Img
  resize224 : Img → Img
  gradcamFn : Img → Nat → String

-- Line 77: img_resized / 255.0, applied per channel of every pixel.
def normalizeImg (img : Img) : Img :=
  img.map (fun row => row.map (fun p => (p.1 / 255, p.2.1 / 255, p.2.2 / 255)))

/-
  Python exceptions that can escape the embedded functions:
  - `cvError`: cv2.error, raised by cv2.cvtColor when its input is the
    None object returned by a failed cv2.imdecode (line 75 on bad bytes);
  - `valueError`: np.argmax raises ValueError on an empty array;
  - `indexError`: Python list indexing out of bounds (CLASS_NAMES[i]).
-/
inductive PyErr where
  | cvError
  | valueError
  | indexError
  deriving DecidableEq

/-
  preprocess_and_predict (lines 71-82).  `model` is the process-wide
  classifier: `none` when the startup weight load failed (line 54),
  otherwise the forward pass mapping the normalized image to the softmax
  probability array (model.predict(...)[0], line 79).  Returns `Ok none`
  exactly on the line-72 early return (`if model is None: return None`).
-/
def preprocess_and_predict (env : Env) (model : Option (Img → List ℚ))
    (image_bytes : List Nat) : Except PyErr (Option (List ℚ × String)) :=
  match model with
  | none => .ok none
  | some predict =>
    match env.imdecode image_bytes with
    | none => .error .cvError
    | some img =>
      let img_rgb := env.cvtColorRGB img
      let img_resized := env.resize224 img_rgb
      let img_normalized := normalizeImg img_resized
      let prediction_array := predict img_normalized
      if prediction_array.isEmpty then .error .valueError
      else
        let predicted_index := np_argmax prediction_array
        let heatmap_base64 := env.gradcamFn img_normalized predicted_index
        .ok (some (prediction_array, heatmap_base64))

/-
  Python f-string formatting "{x:.2f}" of a rational: round to the nearest
  hundredth (ties modelled as round-half-up) and print with exactly two
  digits after the decimal point.
-/
def format2f (q : ℚ) : String :=
  let n : ℤ := round (q * 100)
  let sign := if n < 0 then "-" else ""
  let m := n.natAbs
  sign ++ toString (m / 100) ++ "." ++
    (if m % 100 < 10 then "0" else "") ++ toString (m % 100)

/-
  The JSON body returned by the /predict endpoint: either the error dict
  of line 131 or the success dict of lines 135-141.
-/
inductive ApiResponse where
  | errorResult (msg : String)
  | success (filename : String) (diagnosis : String) (confidence : String)
      (probabilities : List ℚ) (heatmap_image : String)
  deriving DecidableEq

/-
  predict_image (lines 126-141).  The upload transport (file.read) is
  outside the embedding; `filename` and `image_bytes` are its results.
  Line 134 indexes prediction_array and line 137 indexes CLASS_NAMES with
  predicted_index; an out-of-bounds access raises IndexError in Python,
  embedded as the explicit bound checks below.
-/
def predict_image (env : Env) (model : Option (Img → List ℚ))
    (filename : String) (image_bytes : List Nat) : Except PyErr ApiResponse :=
  match preprocess_and_predict env model image_bytes with
  | .error e => .error e
  | .ok none => .ok (.errorResult "Model not loaded or prediction failed")
  | .ok (some (prediction_array, heatmap)) =>
    let predicted_index := np_argmax prediction_array
    if predicted_index < prediction_array.length then
      let confidence := prediction_array.getD predicted_index 0 * 100
      if predicted_index < CLASS_NAMES.length then
        .ok (.success filename (CLASS_NAMES.getD predicted_index "")
          (format2f confidence ++ "%")
          (prediction_array.map (fun q => q * 100)) heatmap)
      else .error .indexError
    else .error .indexError

/-
  Postcondition of the classifier forward pass: build_model (lines 37-46)
  ends in Dense(NUM_CLASSES, activation softmax), so the output of
  model.predict(...)[0] is a length-NUM_CLASSES vector of values in [0,1]
  summing to 1.
-/
def IsSoftmaxOutput (p : List ℚ) : Prop :=
  p.length = NUM_CLASSES ∧ (∀ x ∈ p, 0 ≤ x ∧ x ≤ 1) ∧ p.sum = 1

instance (p : List ℚ) : Decidable (IsSoftmaxOutput p) := by
  unfold IsSoftmaxOutput; infer_instance

/-
  Core evaluation lemma: with the classifier loaded and the bytes decoding
  to an image, predict_image returns the success payload built from the
  probability array p produced by the forward pass, and every index used
  in it (diagnosis label, confidence, attribution target) is np_argmax p.
-/
theorem predict_image_eq (env : Env) (f : Img → List ℚ) (image_bytes : List Nat)
    (img : Img) (fname : String) (p : List ℚ)
    (hdec : env.imdecode image_bytes = some img)
    (hp : p = f (normalizeImg (env.resize224 (env.cvtColorRGB img))))
    (hlen : p.length = NUM_CLASSES) :
    predict_image env (some f) fname image_bytes =
      .ok (.success fname (CLASS_NAMES.getD (np_argmax p) "")
        (format2f (p.getD (np_argmax p) 0 * 100) ++ "%")
        (p.map (fun q => q * 100))
        (env.gradcamFn (normalizeImg (env.resize224 (env.cvtColorRGB img)))
          (np_argmax p))) := by
  have hne : p ≠ [] := by
    intro h0; rw [h0] at hlen; simp [NUM_CLASSES] at hlen
  have hemp : p.isEmpty = false := by
    cases p with
    | nil => exact absurd rfl hne
    | cons a l => rfl
  have hlt : np_argmax p < p.length := np_argmax_lt_length hne
  have hlt5 : np_argmax p < CLASS_NAMES.length := by
    have : CLASS_NAMES.length = NUM_CLASSES := rfl
    omega
  simp only [predict_image, preprocess_and_predict, hdec, ← hp, hemp,
    Bool.false_eq_true, if_false, hlt, if_true, hlt5]

/-
  Grad-CAM embedding (generate_gradcam, lines 59-68).

  A Keras model for the purpose of mutation tracking: weight values plus
  the final activation of the classification head.
-/
inductive Activ where
  | softmaxAct
  | linearAct
  deriving DecidableEq

structure TfModel where
  weights : List ℚ
  finalActiv : Activ
  deriving DecidableEq

-- tf_keras_vis ReplaceToLinear: swaps the final activation to linear.
def ReplaceToLinear (m : TfModel) : TfModel :=
  { weights := m.weights, finalActiv := Activ.linearAct }

/-
  The tf_keras_vis Gradcam constructor, modelled from the library
  semantics of its clone flag: with clone = true the model modifier is
  applied to a deep copy and the shared model object is untouched; with
  clone = false the modifier mutates the model in place.  The first
  component is the model the gradient computation runs on; the second is
  the shared model object after the call.
-/
def gradcamClone (shared : TfModel) (modifier : TfModel → TfModel)
    (clone : Bool) : TfModel × TfModel :=
  if clone then (modifier shared, shared)
  else (modifier shared, modifier shared)

-- numpy astype(np.uint8): truncate toward zero and wrap modulo 256
-- (exact for the nonnegative values produced in generate_gradcam).
def toUint8 (q : ℚ) : Nat := (⌊q⌋).toNat % 256

abbrev RGB : Type := Nat × Nat × Nat

-- cv2.addWeighted per channel: saturate_cast(round(0.4*h + 0.6*o)).
def addWeightedPx (h o : Nat) : Nat :=
  min 255 (round ((2 / 5 : ℚ) * h + (3 / 5 : ℚ) * o)).toNat

def addWeightedRGB (h o : RGB) : RGB :=
  (addWeightedPx h.1 o.1, addWeightedPx h.2.1 o.2.1, addWeightedPx h.2.2 o.2.2)

/-
  generate_gradcam (lines 59-68), with pixel grids flattened to pixel
  lists.  Parameters standing for external library behavior:
  - `jet`: the cv2.COLORMAP_JET lookup table, one RGB triple per uint8
    intensity (line 65);
  - `camFn`: the tf_keras_vis Gradcam call of line 62, producing the
    normalized saliency value of each pixel (values in [0,1]) from the
    gradient model, the image batch and the CategoricalScore target index.
  The JPEG encoding and base64 encoding of lines 67-68 are transport
  encodings outside this claim set; the function returns the composited
  Explanation Image pixels together with the shared model object after
  the call (for the frame condition).
-/
def generate_gradcam (jet : Nat → RGB)
    (camFn : TfModel → List (ℚ × ℚ × ℚ) → Nat → List ℚ)
    (shared : TfModel) (image_batch : List (ℚ × ℚ × ℚ))
    (prediction_index : Nat) : List RGB × TfModel :=
  let gc := gradcamClone shared ReplaceToLinear true
  let heat := camFn gc.1 image_batch prediction_index
  let heatmap := heat.map (fun q => toUint8 (q * 255))
  let original_image := image_batch.map
    (fun p => (toUint8 (p.1 * 255), toUint8 (p.2.1 * 255), toUint8 (p.2.2 * 255)))
  let heatmap_img := heatmap.map jet
  (List.zipWith addWeightedRGB heatmap_img original_image, gc.2)

theorem getD_map_of_lt (f : ℚ → RGB) :
    ∀ (l : List ℚ) (i : Nat), i < l.length →
      (l.map f).getD i (0, 0, 0) = f (l.getD i 0) := by
  intro l
  induction l with
  | nil => intro i hi; simp at hi
  | cons x xs ih =>
    intro i hi
    cases i with
    | zero => rfl
    | succ j =>
      simp only [List.map_cons, List.getD_cons_succ]
      exact ih j (by simp only [List.length_cons] at hi; omega)

theorem getD_zipWith_of_lt (f : RGB → RGB → RGB) :
    ∀ (a b : List RGB) (i : Nat), i < a.length → i < b.length →
      (List.zipWith f a b).getD i (0, 0, 0) =
        f (a.getD i (0, 0, 0)) (b.getD i (0, 0, 0)) := by
  intro a
  induction a with
  | nil => intro b i hi; simp at hi
  | cons x xs ih =>
    intro b i hia hib
    cases b with
    | nil => simp at hib
    | cons y ys =>
      cases i with
      | zero => rfl
      | succ j =>
        simp only [List.zipWith_cons_cons, List.getD_cons_succ]
        exact ih ys j (by simp only [List.length_cons] at hia; omega)
          (by simp only [List.length_cons] at hib; omega)

theorem getD_map_pix_of_lt (g : (ℚ × ℚ × ℚ) → RGB) :
    ∀ (l : List (ℚ × ℚ × ℚ)) (i : Nat), i < l.length →
      (l.map g).getD i (0, 0, 0) = g (l.getD i (0, 0, 0)) := by
  intro l
  induction l with
  | nil => intro i hi; simp at hi
  | cons x xs ih =>
    intro i hi
    cases i with
    | zero => rfl
    | succ j =>
      simp only [List.map_cons, List.getD_cons_succ]
      exact ih j (by simp only [List.length_cons] at hi; omega)

/-
  PDF report embedding (create_pdf_report, lines 95-120, with the PDF
  class header of lines 85-93).

  The rendered document is modelled as the ordered list of elements the
  fpdf calls emit.  `PdfEnv` carries the external functions:
  - `b64decode` models base64.b64decode (line 110): `none` when Python
    raises binascii.Error on a malformed base64 string;
  - `imageOk` models whether pdf.image (line 113) accepts the decoded
    bytes as an image (it raises otherwise);
  - `nowString` is the datetime.now() timestamp string of line 99.
-/
structure ReportData where
  filename : String
  diagnosis : String
  confidence : String
  original_image : String
  heatmap_image : String
  deriving DecidableEq

inductive PdfElem where
  | headerTitle
  | reportDate (t : String)
  | patientFile (s : String)
  | diagnosisHeader
  | condition (s : String)
  | confidenceLine (s : String)
  | caption (s : String)
  | image (bytes : List Nat) (w : Nat)
  deriving DecidableEq

structure PdfEnv where
  b64decode : String → Option (List Nat)
  imageOk : List Nat → Bool
  nowString : String

/-
  One iteration of the loop of lines 108-116.  The base64 decode happens
  first inside the try block; if it raises, the caption cell of line 112
  is never emitted and the except arm swallows the error (only a log
  line).  If the decode succeeds, the caption cell is emitted and then
  pdf.image runs; if pdf.image raises, the already-emitted caption stays
  in the document and the rest of the block is skipped.
-/
def imageBlock (penv : PdfEnv) (title : String) (b64_string : String) :
    List PdfElem :=
  match penv.b64decode b64_string with
  | none => []
  | some image_bytes =>
    if penv.imageOk image_bytes then
      [PdfElem.caption title, PdfElem.image image_bytes 150]
    else
      [PdfElem.caption title]

def create_pdf_report (penv : PdfEnv) (data : ReportData) : List PdfElem :=
  [PdfElem.headerTitle,
   PdfElem.reportDate penv.nowString,
   PdfElem.patientFile data.filename,
   PdfElem.diagnosisHeader,
   PdfElem.condition data.diagnosis,
   PdfElem.confidenceLine data.confidence]
  ++ imageBlock penv "Original Scan" data.original_image
  ++ imageBlock penv "Model Focus Heatmap" data.heatmap_image

theorem sum_map_mul_right100 (l : List ℚ) :
    (l.map (fun q => q * 100)).sum = l.sum * 100 := by
  induction l with
  | nil => simp
  | cons x xs ih => simp [ih, add_mul]

-- Every index below NUM_CLASSES selects one of the five fixed labels.
theorem CLASS_NAMES_getD_mem :
    ∀ k, k < 5 →
      CLASS_NAMES.getD k "" ∈
        ["No DR", "Mild", "Moderate", "Severe", "Proliferative DR"] := by
  decide

/-
  Concrete instantiations used by the witnesses and counterexamples.
  `wEnv` models cv2 on an upload whose bytes decode (imdecode succeeds);
  `textEnv` models cv2 on malformed bytes such as plain ASCII text, where
  cv2.imdecode returns the None object for the given buffer.
-/
def wImg : Img := [[(10, 20, 30)]]

-- Leading bytes of a JPEG upload (FF D8 FF E0).
def wBytes : List Nat := [255, 216, 255, 224]

-- ASCII bytes of the text "not an image".
def textBytes : List Nat := [110, 111, 116, 32, 97, 110, 32, 105, 109, 97, 103, 101]

def wEnv : Env :=
  ⟨fun _ => some wImg, fun i => i, fun i => i,
   fun _ k => String.append "cam" (toString k)⟩

def textEnv : Env := ⟨fun _ => none, fun i => i, fun i => i, fun _ _ => ""⟩

def wP : List ℚ := [1 / 16, 1 / 2, 1 / 4, 1 / 8, 1 / 16]

def wF : Img → List ℚ := fun _ => wP

-- A distribution with a tie for the maximum at indices 1 and 2.
def wPtie : List ℚ := [1 / 8, 3 / 8, 3 / 8, 1 / 8, 0]

def wFtie : Img → List ℚ := fun _ => wPtie

def wJet : Nat → RGB := fun n => (n % 256, 255 - n % 256, 0)

def wCamFn : TfModel → List (ℚ × ℚ × ℚ) → Nat → List ℚ := fun _ _ _ => [1 / 2]

def wShared : TfModel := ⟨[1, 2, 3], Activ.softmaxAct⟩

def wBatch : List (ℚ × ℚ × ℚ) := [(1 / 4, 1 / 2, 3 / 4)]

theorem wP_softmax : IsSoftmaxOutput wP := by
  refine ⟨rfl, ?_, ?_⟩
  · intro x hx
    simp only [wP, List.mem_cons, List.not_mem_nil, or_false] at hx
    rcases hx with rfl | rfl | rfl | rfl | rfl <;> norm_num
  · simp only [wP, List.sum_cons, List.sum_nil]
    norm_num

theorem wPtie_argmax : np_argmax wPtie = 1 := by
  have h1 : npMax [(3 : ℚ) / 8, 3 / 8, 1 / 8, 0] = 3 / 8 := by
    simp only [npMax]
    norm_num
  have h2 : npMax [(3 : ℚ) / 8, 1 / 8, 0] = 3 / 8 := by
    simp only [npMax]
    norm_num
  simp only [wPtie, np_argmax, h1, h2]
  norm_num

/-
  Model of CPython base64.b64decode with default validation: characters
  outside the base64 alphabet are discarded, then binascii raises unless
  the remaining length is a multiple of 4.  The decoded payload content
  never matters to the renderer claims, so it is modelled as the raw code
  points of the string.
-/
def isB64Char (c : Char) : Bool := c.isAlphanum || c == '+' || c == '/' || c == '='

def pyB64DecodeOk (s : String) : Bool :=
  (s.toList.filter isB64Char).length % 4 == 0

def pyB64Env : PdfEnv :=
  ⟨fun s => if pyB64DecodeOk s then some (s.toList.map Char.toNat) else none,
   fun _ => true, "2026-10-12 10:00:00"⟩

-- A payload whose original image field is malformed base64 ("abc" has 3
-- alphabet characters, so base64.b64decode raises Incorrect padding) and
-- whose heatmap field is valid base64.
def corruptReport : ReportData := ⟨"scan.jpg", "Mild", "50.00%", "abc", "AAAA"⟩

def wHeatBytes : List Nat := "AAAA".toList.map Char.toNat

-- The mirrored payload: valid original image, malformed heatmap field.
def mirrorReport : ReportData := ⟨"scan2.jpg", "Severe", "12.00%", "AAAA", "abc"⟩

/-- C1: for every inference request in which the model is loaded and the
uploaded bytes decode to an image, the predicted class index passed to the
Attribution Engine as the target, the index selecting the diagnosis label
from CLASS_NAMES, and the index whose probability is formatted as the
confidence are all np_argmax of the probability array the classifier
produced for that request. -/
theorem C1_argmax_agreement (env : Env) (f : Img → List ℚ)
    (image_bytes : List Nat) (img : Img) (fname : String) (p : List ℚ)
    (hdec : env.imdecode image_bytes = some img)
    (hp : p = f (normalizeImg (env.resize224 (env.cvtColorRGB img))))
    (hlen : p.length = NUM_CLASSES) :
    predict_image env (some f) fname image_bytes =
      .ok (.success fname (CLASS_NAMES.getD (np_argmax p) "")
        (format2f (p.getD (np_argmax p) 0 * 100) ++ "%")
        (p.map (fun q => q * 100))
        (env.gradcamFn (normalizeImg (env.resize224 (env.cvtColorRGB img)))
          (np_argmax p))) :=
  predict_image_eq env f image_bytes img fname p hdec hp hlen

theorem C1_witness :
    wEnv.imdecode wBytes = some wImg ∧ wP.length = NUM_CLASSES ∧
    predict_image wEnv (some wF) "scan.jpg" wBytes =
      .ok (.success "scan.jpg" (CLASS_NAMES.getD (np_argmax wP) "")
        (format2f (wP.getD (np_argmax wP) 0 * 100) ++ "%")
        (wP.map (fun q => q * 100))
        (wEnv.gradcamFn (normalizeImg (wEnv.resize224 (wEnv.cvtColorRGB wImg)))
          (np_argmax wP))) :=
  ⟨rfl, rfl, C1_argmax_agreement wEnv wF wBytes wImg "scan.jpg" wP rfl rfl rfl⟩

/-- C2: the claim says malformed bytes yield a DecodeError result without
throwing; on the code, cv2.imdecode returns the None object and the next
line cv2.cvtColor then raises cv2.error, which nothing in
preprocess_and_predict or predict_image catches, so the request fails
with an uncaught exception instead of a structured result.  This theorem
evaluates the embedded code on that path. -/
theorem C2_decode_raises (env : Env) (f : Img → List ℚ) (fname : String)
    (image_bytes : List Nat) (hmal : env.imdecode image_bytes = none) :
    predict_image env (some f) fname image_bytes = .error PyErr.cvError := by
  simp [predict_image, preprocess_and_predict, hmal]

theorem C2_witness :
    textEnv.imdecode textBytes = none ∧
    predict_image textEnv (some wF) "notes.txt" textBytes = .error PyErr.cvError :=
  ⟨rfl, C2_decode_raises textEnv wF "notes.txt" textBytes rfl⟩

/-- C3: if the process-wide classifier is absent (weight load failed at
startup, line 54 sets model to None), then for every input byte buffer
the inference returns the model-unavailable error dict of line 131 and
no exception escapes. -/
theorem C3_model_unavailable (env : Env) (fname : String)
    (image_bytes : List Nat) :
    predict_image env none fname image_bytes =
      .ok (.errorResult "Model not loaded or prediction failed") ∧
    ∀ e : PyErr, predict_image env none fname image_bytes ≠ .error e := by
  refine ⟨rfl, fun e h => ?_⟩
  simp [predict_image, preprocess_and_predict] at h

/-- C4 counterexample: with the classifier absent and malformed input
bytes, the code returns the model-unavailable error dict, not a decode
failure: the model check on line 72 runs before cv2.imdecode, so the
pipeline never reaches the Decoded state.  This refutes the claim that
the DecodeError would be produced in that situation. -/
theorem C4_counterexample :
    predict_image textEnv none "notes.txt" textBytes =
      .ok (.errorResult "Model not loaded or prediction failed") ∧
    predict_image textEnv none "notes.txt" textBytes ≠ .error PyErr.cvError :=
  ⟨rfl, by simp [predict_image, preprocess_and_predict]⟩

/-- C4 (amended): when the process-wide classifier is absent the pipeline
short-circuits immediately, before the Decoded and Normalized steps: for
every input byte buffer, including malformed bytes that fail to decode,
the result is the ModelUnavailable error dict and no decode error is
raised. -/
theorem C4_short_circuit (env : Env) (fname : String) (image_bytes : List Nat)
    (hmal : env.imdecode image_bytes = none) :
    predict_image env none fname image_bytes =
      .ok (.errorResult "Model not loaded or prediction failed") ∧
    predict_image env none fname image_bytes ≠ .error PyErr.cvError := by
  refine ⟨rfl, ?_⟩
  simp [predict_image, preprocess_and_predict]

theorem C4_witness :
    textEnv.imdecode textBytes = none ∧
    (predict_image textEnv none "scan.txt" textBytes =
        .ok (.errorResult "Model not loaded or prediction failed") ∧
      predict_image textEnv none "scan.txt" textBytes ≠ .error PyErr.cvError) :=
  ⟨rfl, C4_short_circuit textEnv "scan.txt" textBytes rfl⟩

/-- C5: for every successful inference the packaged result carries the
original filename, the diagnosis label at the argmax index, a confidence
string formatting 100 times the maximum probability to 2 decimal places,
and a probability vector of exactly 5 entries, each in [0,100], summing
to 100 within the 0.5 tolerance, obtained by scaling the softmax output
of the classifier by 100. -/
theorem C5_packaged (env : Env) (f : Img → List ℚ) (image_bytes : List Nat)
    (img : Img) (fname : String) (p : List ℚ)
    (hdec : env.imdecode image_bytes = some img)
    (hp : p = f (normalizeImg (env.resize224 (env.cvtColorRGB img))))
    (hsm : IsSoftmaxOutput p) :
    predict_image env (some f) fname image_bytes =
      .ok (.success fname (CLASS_NAMES.getD (np_argmax p) "")
        (format2f (npMax p * 100) ++ "%")
        (p.map (fun q => q * 100))
        (env.gradcamFn (normalizeImg (env.resize224 (env.cvtColorRGB img)))
          (np_argmax p))) ∧
    (p.map (fun q => q * 100)).length = 5 ∧
    (∀ x ∈ p.map (fun q => q * 100), 0 ≤ x ∧ x ≤ 100) ∧
    |(p.map (fun q => q * 100)).sum - 100| ≤ 1 / 2 := by
  obtain ⟨hlen, hbound, hsum⟩ := hsm
  have hne : p ≠ [] := by
    intro h0; rw [h0] at hlen; simp [NUM_CLASSES] at hlen
  have hmax : p.getD (np_argmax p) 0 = npMax p := getD_np_argmax hne
  refine ⟨?_, ?_, ?_, ?_⟩
  · have h := predict_image_eq env f image_bytes img fname p hdec hp hlen
    rw [hmax] at h
    exact h
  · simpa [NUM_CLASSES] using hlen
  · intro x hx
    obtain ⟨q, hq, rfl⟩ := List.mem_map.mp hx
    obtain ⟨h0, h1⟩ := hbound q hq
    constructor
    · exact mul_nonneg h0 (by norm_num)
    · calc q * 100 ≤ 1 * 100 := mul_le_mul_of_nonneg_right h1 (by norm_num)
      _ = 100 := by norm_num
  · rw [sum_map_mul_right100, hsum]
    norm_num

theorem C5_witness :
    IsSoftmaxOutput wP ∧
    (predict_image wEnv (some wF) "scan.jpg" wBytes =
        .ok (.success "scan.jpg" (CLASS_NAMES.getD (np_argmax wP) "")
          (format2f (npMax wP * 100) ++ "%")
          (wP.map (fun q => q * 100))
          (wEnv.gradcamFn
            (normalizeImg (wEnv.resize224 (wEnv.cvtColorRGB wImg)))
            (np_argmax wP))) ∧
      (wP.map (fun q => q * 100)).length = 5 ∧
      (∀ x ∈ wP.map (fun q => q * 100), 0 ≤ x ∧ x ≤ 100) ∧
      |(wP.map (fun q => q * 100)).sum - 100| ≤ 1 / 2) :=
  ⟨wP_softmax, C5_packaged wEnv wF wBytes wImg "scan.jpg" wP rfl rfl wP_softmax⟩

/-- C9: whenever the classifier is loaded and the image decodes, the
argmax over the length-5 probability array is strictly below the length
of CLASS_NAMES, so the diagnosis lookup is in bounds and the returned
diagnosis is one of the five fixed labels. -/
theorem C9_diagnosis_in_labels (env : Env) (f : Img → List ℚ)
    (image_bytes : List Nat) (img : Img) (fname : String) (p : List ℚ)
    (hdec : env.imdecode image_bytes = some img)
    (hp : p = f (normalizeImg (env.resize224 (env.cvtColorRGB img))))
    (hlen : p.length = NUM_CLASSES) :
    np_argmax p < CLASS_NAMES.length ∧
    CLASS_NAMES.getD (np_argmax p) "" ∈
      ["No DR", "Mild", "Moderate", "Severe", "Proliferative DR"] ∧
    predict_image env (some f) fname image_bytes =
      .ok (.success fname (CLASS_NAMES.getD (np_argmax p) "")
        (format2f (p.getD (np_argmax p) 0 * 100) ++ "%")
        (p.map (fun q => q * 100))
        (env.gradcamFn (normalizeImg (env.resize224 (env.cvtColorRGB img)))
          (np_argmax p))) := by
  have hne : p ≠ [] := by
    intro h0; rw [h0] at hlen; simp [NUM_CLASSES] at hlen
  have hlt : np_argmax p < p.length := np_argmax_lt_length hne
  have hk5 : np_argmax p < 5 := by
    rw [hlen] at hlt; exact hlt
  exact ⟨hk5, CLASS_NAMES_getD_mem _ hk5,
    predict_image_eq env f image_bytes img fname p hdec hp hlen⟩

theorem C9_witness :
    wEnv.imdecode wBytes = some wImg ∧ wP.length = NUM_CLASSES ∧
    (np_argmax wP < CLASS_NAMES.length ∧
      CLASS_NAMES.getD (np_argmax wP) "" ∈
        ["No DR", "Mild", "Moderate", "Severe", "Proliferative DR"] ∧
      predict_image wEnv (some wF) "scan.jpg" wBytes =
        .ok (.success "scan.jpg" (CLASS_NAMES.getD (np_argmax wP) "")
          (format2f (wP.getD (np_argmax wP) 0 * 100) ++ "%")
          (wP.map (fun q => q * 100))
          (wEnv.gradcamFn
            (normalizeImg (wEnv.resize224 (wEnv.cvtColorRGB wImg)))
            (np_argmax wP)))) :=
  ⟨rfl, rfl, C9_diagnosis_in_labels wEnv wF wBytes wImg "scan.jpg" wP rfl rfl rfl⟩

/-- C10: when several classes share the maximum probability, the index the
request uses everywhere (diagnosis label, confidence, attribution target)
is the first maximal one: it attains the maximum, it is below every other
index attaining the maximum, and the packaged result uses exactly this
index in all three places. -/
theorem C10_tie_break (env : Env) (f : Img → List ℚ)
    (image_bytes : List Nat) (img : Img) (fname : String) (p : List ℚ)
    (hdec : env.imdecode image_bytes = some img)
    (hp : p = f (normalizeImg (env.resize224 (env.cvtColorRGB img))))
    (hlen : p.length = NUM_CLASSES) :
    p.getD (np_argmax p) 0 = npMax p ∧
    (∀ i, i < p.length → p.getD i 0 = npMax p → np_argmax p ≤ i) ∧
    predict_image env (some f) fname image_bytes =
      .ok (.success fname (CLASS_NAMES.getD (np_argmax p) "")
        (format2f (p.getD (np_argmax p) 0 * 100) ++ "%")
        (p.map (fun q => q * 100))
        (env.gradcamFn (normalizeImg (env.resize224 (env.cvtColorRGB img)))
          (np_argmax p))) := by
  have hne : p ≠ [] := by
    intro h0; rw [h0] at hlen; simp [NUM_CLASSES] at hlen
  exact ⟨getD_np_argmax hne, fun i hi hm => np_argmax_le_of_getD_eq i hi hm,
    predict_image_eq env f image_bytes img fname p hdec hp hlen⟩

theorem C10_witness :
    wEnv.imdecode wBytes = some wImg ∧ wPtie.length = NUM_CLASSES ∧
    np_argmax wPtie = 1 ∧
    (wPtie.getD (np_argmax wPtie) 0 = npMax wPtie ∧
      (∀ i, i < wPtie.length → wPtie.getD i 0 = npMax wPtie →
        np_argmax wPtie ≤ i) ∧
      predict_image wEnv (some wFtie) "scan.jpg" wBytes =
        .ok (.success "scan.jpg" (CLASS_NAMES.getD (np_argmax wPtie) "")
          (format2f (wPtie.getD (np_argmax wPtie) 0 * 100) ++ "%")
          (wPtie.map (fun q => q * 100))
          (wEnv.gradcamFn
            (normalizeImg (wEnv.resize224 (wEnv.cvtColorRGB wImg)))
            (np_argmax wPtie)))) :=
  ⟨rfl, rfl, wPtie_argmax,
    C10_tie_break wEnv wFtie wBytes wImg "scan.jpg" wPtie rfl rfl rfl⟩

/-- C7: every explanation computation scales the saliency map to the
0-255 range, applies the jet colormap to get a 3-channel heat image, and
blends it with the original image denormalized back to the 0-255 byte
range using the fixed weights 40 percent heat and 60 percent original:
at every pixel the Explanation Image equals the 0.4/0.6 weighted blend
of the colormapped scaled heat value and the denormalized original. -/
theorem C7_composite (jet : Nat → RGB)
    (camFn : TfModel → List (ℚ × ℚ × ℚ) → Nat → List ℚ)
    (shared : TfModel) (image_batch : List (ℚ × ℚ × ℚ)) (k i : Nat)
    (hi : i < (camFn (ReplaceToLinear shared) image_batch k).length)
    (hi2 : i < image_batch.length) :
    (generate_gradcam jet camFn shared image_batch k).1.getD i (0, 0, 0) =
      addWeightedRGB
        (jet (toUint8
          ((camFn (ReplaceToLinear shared) image_batch k).getD i 0 * 255)))
        (toUint8 ((image_batch.getD i (0, 0, 0)).1 * 255),
         toUint8 ((image_batch.getD i (0, 0, 0)).2.1 * 255),
         toUint8 ((image_batch.getD i (0, 0, 0)).2.2 * 255)) ∧
    (∀ h o : Nat, addWeightedPx h o =
      min 255 (round ((2 / 5 : ℚ) * h + (3 / 5 : ℚ) * o)).toNat) := by
  refine ⟨?_, fun h o => rfl⟩
  have hgc : (gradcamClone shared ReplaceToLinear true).1 = ReplaceToLinear shared := rfl
  simp only [generate_gradcam, hgc, List.map_map]
  rw [getD_zipWith_of_lt addWeightedRGB _ _ i
    (by simpa using hi) (by simpa using hi2)]
  rw [getD_map_of_lt _ _ i hi, getD_map_pix_of_lt _ _ i hi2]
  rfl

theorem C7_witness :
    0 < (wCamFn (ReplaceToLinear wShared) wBatch 1).length ∧ 0 < wBatch.length ∧
    ((generate_gradcam wJet wCamFn wShared wBatch 1).1.getD 0 (0, 0, 0) =
        addWeightedRGB
          (wJet (toUint8
            ((wCamFn (ReplaceToLinear wShared) wBatch 1).getD 0 0 * 255)))
          (toUint8 ((wBatch.getD 0 (0, 0, 0)).1 * 255),
           toUint8 ((wBatch.getD 0 (0, 0, 0)).2.1 * 255),
           toUint8 ((wBatch.getD 0 (0, 0, 0)).2.2 * 255)) ∧
      (∀ h o : Nat, addWeightedPx h o =
        min 255 (round ((2 / 5 : ℚ) * h + (3 / 5 : ℚ) * o)).toNat)) :=
  ⟨Nat.zero_lt_one, Nat.zero_lt_one,
    C7_composite wJet wCamFn wShared wBatch 1 0 Nat.zero_lt_one Nat.zero_lt_one⟩

/-- C8: the gradient step of the Attribution Engine operates on a
disposable clone (the Gradcam construction at line 61 passes clone
equal to true) whose final activation is replaced by a linear
pass-through, and the shared process-wide classifier object after the
call is unchanged, weights included. -/
theorem C8_no_shared_mutation (jet : Nat → RGB)
    (camFn : TfModel → List (ℚ × ℚ × ℚ) → Nat → List ℚ)
    (shared : TfModel) (image_batch : List (ℚ × ℚ × ℚ)) (k : Nat) :
    (generate_gradcam jet camFn shared image_batch k).2 = shared ∧
    (gradcamClone shared ReplaceToLinear true).1.finalActiv = Activ.linearAct ∧
    (gradcamClone shared ReplaceToLinear true).1.weights = shared.weights :=
  ⟨rfl, rfl, rfl⟩

/-- C6 counterexample: the claim promises both image captions in the
rendered document, but when the base64 decode of one image raises, the
caption cell of line 112 inside the same try block is never emitted: on
a payload whose original image field is malformed base64, the document
lacks the Original Scan caption while the heatmap caption and image are
present. -/
theorem C6_counterexample :
    PdfElem.caption "Original Scan" ∉ create_pdf_report pyB64Env corruptReport ∧
    PdfElem.caption "Model Focus Heatmap" ∈ create_pdf_report pyB64Env corruptReport ∧
    PdfElem.image wHeatBytes 150 ∈ create_pdf_report pyB64Env corruptReport := by
  decide

/-- C6 (amended): for every report payload in which exactly one of the
two base64 image fields is corrupted — either orientation — the Report
Renderer still produces a document containing the other valid image
together with that image caption and all header fields (title, date,
filename, diagnosis, confidence); the corrupted image failure is
swallowed and its whole block — caption and image — is skipped. -/
theorem C6_lenient_render (penv : PdfEnv) (data : ReportData) (bs : List Nat)
    (hone : (penv.b64decode data.original_image = none ∧
             penv.b64decode data.heatmap_image = some bs) ∨
            (penv.b64decode data.heatmap_image = none ∧
             penv.b64decode data.original_image = some bs))
    (himg : penv.imageOk bs = true) :
    PdfElem.headerTitle ∈ create_pdf_report penv data ∧
    PdfElem.reportDate penv.nowString ∈ create_pdf_report penv data ∧
    PdfElem.patientFile data.filename ∈ create_pdf_report penv data ∧
    PdfElem.condition data.diagnosis ∈ create_pdf_report penv data ∧
    PdfElem.confidenceLine data.confidence ∈ create_pdf_report penv data ∧
    PdfElem.image bs 150 ∈ create_pdf_report penv data ∧
    (penv.b64decode data.original_image = none →
      PdfElem.caption "Model Focus Heatmap" ∈ create_pdf_report penv data ∧
      PdfElem.caption "Original Scan" ∉ create_pdf_report penv data) ∧
    (penv.b64decode data.heatmap_image = none →
      PdfElem.caption "Original Scan" ∈ create_pdf_report penv data ∧
      PdfElem.caption "Model Focus Heatmap" ∉ create_pdf_report penv data) := by
  rcases hone with ⟨hcor, hok⟩ | ⟨hcor, hok⟩
  · simp only [create_pdf_report, imageBlock, hcor, hok, himg, if_true,
      List.nil_append, List.append_assoc, List.cons_append, List.mem_cons,
      List.not_mem_nil, List.mem_append]
    exact ⟨by simp, by simp, by simp, by simp, by simp, by simp,
      fun _ => ⟨by simp, by simp⟩, fun h2 => absurd h2 (by simp)⟩
  · simp only [create_pdf_report, imageBlock, hcor, hok, himg, if_true,
      List.nil_append, List.append_assoc, List.cons_append, List.mem_cons,
      List.not_mem_nil, List.mem_append]
    exact ⟨by simp, by simp, by simp, by simp, by simp, by simp,
      fun h2 => absurd h2 (by simp), fun _ => ⟨by simp, by simp⟩⟩

theorem C6_witness :
    (pyB64Env.b64decode corruptReport.original_image = none ∧
      pyB64Env.b64decode corruptReport.heatmap_image = some wHeatBytes) ∧
    (pyB64Env.b64decode mirrorReport.heatmap_image = none ∧
      pyB64Env.b64decode mirrorReport.original_image = some wHeatBytes) ∧
    pyB64Env.imageOk wHeatBytes = true ∧
    (PdfElem.headerTitle ∈ create_pdf_report pyB64Env corruptReport ∧
      PdfElem.reportDate pyB64Env.nowString ∈ create_pdf_report pyB64Env corruptReport ∧
      PdfElem.patientFile corruptReport.filename ∈ create_pdf_report pyB64Env corruptReport ∧
      PdfElem.condition corruptReport.diagnosis ∈ create_pdf_report pyB64Env corruptReport ∧
      PdfElem.confidenceLine corruptReport.confidence ∈ create_pdf_report pyB64Env corruptReport ∧
      PdfElem.image wHeatBytes 150 ∈ create_pdf_report pyB64Env corruptReport ∧
      (pyB64Env.b64decode corruptReport.original_image = none →
        PdfElem.caption "Model Focus Heatmap" ∈ create_pdf_report pyB64Env corruptReport ∧
        PdfElem.caption "Original Scan" ∉ create_pdf_report pyB64Env corruptReport) ∧
      (pyB64Env.b64decode corruptReport.heatmap_image = none →
        PdfElem.caption "Original Scan" ∈ create_pdf_report pyB64Env corruptReport ∧
        PdfElem.caption "Model Focus Heatmap" ∉ create_pdf_report pyB64Env corruptReport)) ∧
    (PdfElem.headerTitle ∈ create_pdf_report pyB64Env mirrorReport ∧
      PdfElem.reportDate pyB64Env.nowString ∈ create_pdf_report pyB64Env mirrorReport ∧
      PdfElem.patientFile mirrorReport.filename ∈ create_pdf_report pyB64Env mirrorReport ∧
      PdfElem.condition mirrorReport.diagnosis ∈ create_pdf_report pyB64Env mirrorReport ∧
      PdfElem.confidenceLine mirrorReport.confidence ∈ create_pdf_report pyB64Env mirrorReport ∧
      PdfElem.image wHeatBytes 150 ∈ create_pdf_report pyB64Env mirrorReport ∧
      (pyB64Env.b64decode mirrorReport.original_image = none →
        PdfElem.caption "Model Focus Heatmap" ∈ create_pdf_report pyB64Env mirrorReport ∧
        PdfElem.caption "Original Scan" ∉ create_pdf_report pyB64Env mirrorReport) ∧
      (pyB64Env.b64decode mirrorReport.heatmap_image = none →
        PdfElem.caption "Original Scan" ∈ create_pdf_report pyB64Env mirrorReport ∧
        PdfElem.caption "Model Focus Heatmap" ∉ create_pdf_report pyB64Env mirrorReport)) :=
  ⟨⟨by decide, by decide⟩, ⟨by decide, by decide⟩, rfl,
    C6_lenient_render pyB64Env corruptReport wHeatBytes
      (Or.inl ⟨by decide, by decide⟩) rfl,
    C6_lenient_render pyB64Env mirrorReport wHeatBytes
      (Or.inr ⟨by decide, by decide⟩) rfl⟩
